import Mathlib

/-!
Verification of the Hybrid Retrieval Orchestration core of the repository
(source file `Hybrid RAG/hybridRAG.py`).  The Python functions are embedded
shallowly: strings become `String`/`List Char`, the collaborator calls
(SQLite, Chroma, Ollama) become explicit `Except`-valued inputs, and the
pure string-scanning validator `extract_sql` is translated operation by
operation (Python `str.lower`, `str.find`, `str.strip`, substring `in`).
-/

namespace HybridRAG

/-- Models Python `str.lower()` character-wise.  `Char.toLower` lowers the
ASCII range, which covers every string the program manipulates. -/
def lowerL (s : List Char) : List Char := s.map Char.toLower

/-- `isPrefixL p s` is true when `p` is a prefix of `s` (Boolean, so the
scanning functions below stay executable). -/
def isPrefixL : List Char → List Char → Bool
  | [], _ => true
  | _ :: _, [] => false
  | p :: ps, c :: cs => p == c && isPrefixL ps cs

/-- Models Python `s.find(p)`: index of the first occurrence of `p` in `s`,
`none` when absent (Python returns `-1`). -/
def findSub (p : List Char) : List Char → Option Nat
  | [] => if isPrefixL p [] then some 0 else none
  | c :: t => if isPrefixL p (c :: t) then some 0 else (findSub p t).map (· + 1)

/-- Models Python `p in s` (substring containment). -/
def containsSub (s p : List Char) : Bool := (findSub p s).isSome

/-- Models Python `s.strip()`: remove leading and trailing whitespace. -/
def stripL (s : List Char) : List Char :=
  ((s.dropWhile Char.isWhitespace).reverse.dropWhile Char.isWhitespace).reverse

/-- The single-quote character, used to build the SQL string literals of the
source without raw quote characters in this file. -/
def sq : Char := Char.ofNat 39

/-- hybridRAG.py line 107/112: `"SELECT * FROM mid_drugs LIMIT 10;"`. -/
def safeDefault : String := "SELECT * FROM mid_drugs LIMIT 10;"

/-- hybridRAG.py line 114:
`"SELECT * FROM mid_drugs WHERE name LIKE '%keyword%' LIMIT 10;"`. -/
def wildcardDefault : String :=
  String.mk ("SELECT * FROM mid_drugs WHERE name LIKE ".data
    ++ [sq] ++ "%keyword%".data ++ [sq] ++ " LIMIT 10;".data)

/-- hybridRAG.py line 29: `TABLE_NAME = "mid_drugs"`. -/
def TABLE_NAME : String := "mid_drugs"

/-- hybridRAG.py lines 44-60: the `EXPECTED_COLUMNS` list. -/
def EXPECTED_COLUMNS : List String :=
  ["name", "link", "contains", "productintroduction", "productuses",
   "productbenefits", "sideeffect", "howtouse", "howworks", "quicktips",
   "safetyadvice", "chemical_class", "habit_forming", "therapeutic_class",
   "action_class"]

/-- The keyword `"select"` scanned for at hybridRAG.py line 105. -/
def selKw : List Char := "select".data

/-- The join marker `" join "` scanned for at hybridRAG.py line 111. -/
def joinKw : List Char := " join ".data

/-- The token `"drug_name"` scanned for at hybridRAG.py line 113. -/
def drugKw : List Char := "drug_name".data

/-- hybridRAG.py lines 103-116, `extract_sql`:
```
idx = text.lower().find("select")
if idx == -1: return "SELECT * FROM mid_drugs LIMIT 10;"
sql = text[idx:].strip()
if " join " in sql.lower(): return "SELECT * FROM mid_drugs LIMIT 10;"
if "drug_name" in sql.lower(): return "SELECT * FROM mid_drugs WHERE name LIKE '%keyword%' LIMIT 10;"
return sql
``` -/
def extract_sql (text : String) : String :=
  match findSub selKw (lowerL text.data) with
  | none => safeDefault
  | some idx =>
    let sql := stripL (text.data.drop idx)
    if containsSub (lowerL sql) joinKw then safeDefault
    else if containsSub (lowerL sql) drugKw then wildcardDefault
    else String.mk sql

/-- A candidate query that filters on a column name that is not in
`EXPECTED_COLUMNS` (and is not the literal token `drug_name`). -/
def unknownColQuery : String :=
  "SELECT * FROM mid_drugs WHERE bogus_col LIKE x LIMIT 10;"

/-- A retrieval passage as built by `vector_search` (hybridRAG.py line 195):
`{"text": d, "meta": m}`. -/
structure Passage where
  text : String
  meta : String
deriving DecidableEq

/-- The slice of the Chroma query response that the code reads at
hybridRAG.py lines 193-194: `res["documents"][0]` and `res["metadatas"][0]`
(Chroma returns one ranked list per query embedding; the code issues a
single query embedding with `n_results=5`).  The per-entry metadata
`{"name": ...}` is modelled by its single value. -/
structure ChromaRes where
  documents : List String
  metadatas : List String
deriving DecidableEq

/-- hybridRAG.py lines 189-195, `vector_search`.  The collaborator chain
(`get_collection`, `embed`, `col.query`) is modelled by its combined
outcome `res`: `.ok` with the ranked response, `.error` when any of those
calls raises.  The function body has no exception handling, so an error
outcome propagates unchanged; on success the code zips documents with
metadatas: `[{"text": d, "meta": m} for d, m in zip(docs, metas)]`. -/
def vector_search (res : Except String ChromaRes) :
    Except String (List Passage) :=
  match res with
  | .error e => .error e
  | .ok r => .ok ((r.documents.zip r.metadatas).map fun p => ⟨p.1, p.2⟩)

/-- A structured row: a mapping from column name to value, one per matched
row, as produced by `df.to_dict(orient="records")` (hybridRAG.py line 252). -/
abbrev Row := List (String × String)

/-- The `ctx` dictionary built in `answer_hybrid` (hybridRAG.py lines
251-254): all SQL rows and all vector docs, unconditionally. -/
structure Ctx where
  sql_rows : List Row
  vector_docs : List Passage
deriving DecidableEq

/-- hybridRAG.py lines 251-254: `ctx = ⦃"sql_rows": ..., "vector_docs": ...⦄`
with no size cap and no truncation of either list. -/
def buildCtx (df_sql : List Row) (vec_docs : List Passage) : Ctx :=
  ⟨df_sql, vec_docs⟩

/-- A JSON string literal (character escaping elided: escaping can only
lengthen the output, and only length lower bounds are proved below). -/
def quoteJ (s : String) : String := "\"" ++ s ++ "\""

/-- Models the comma separation of a JSON list/object body. -/
def joinComma : List String → String
  | [] => ""
  | [x] => x
  | x :: y :: t => x ++ ", " ++ joinComma (y :: t)

/-- Serialisation of one structured row as a JSON object. -/
def serializeRow (r : Row) : String :=
  "\x7b" ++ joinComma (r.map fun p => quoteJ p.1 ++ ": " ++ quoteJ p.2)
    ++ "\x7d"

/-- Serialisation of one passage as a JSON object. -/
def serializePassage (p : Passage) : String :=
  "\x7b" ++ quoteJ "text" ++ ": " ++ quoteJ p.text ++ ", "
    ++ quoteJ "meta" ++ ": " ++ quoteJ p.meta ++ "\x7d"

/-- Models `json.dumps(ctx)` at hybridRAG.py line 258 up to whitespace: the
source passes `indent=2`, which only adds characters, so this compact form
is a lower bound on the serialized context length. -/
def serializeCtx (c : Ctx) : String :=
  "\x7b" ++ quoteJ "sql_rows" ++ ": ["
    ++ joinComma (c.sql_rows.map serializeRow) ++ "], "
    ++ quoteJ "vector_docs" ++ ": ["
    ++ joinComma (c.vector_docs.map serializePassage) ++ "]\x7d"

/-- hybridRAG.py lines 264-280, `ask_mid`, with each collaborator call
modelled by its outcome: `chatSqlRes` is the chat call inside
`generate_sql` (line 246; `.error` = the Ollama call raised), `runSql`
maps the validated SQL text to the structured store's outcome (lines
119-124; `.error e` carries `str(e)`), `vecRes` is the Chroma response
consumed by `vector_search` (line 277), and `chatAnsRes` is the chat call
inside `answer_hybrid` (line 261).  Only the `run_sql` call sits inside a
`try/except` (lines 270-273), which returns the string
`f"SQL error: ⦃e⦄"`; every other collaborator failure propagates. -/
def ask_mid (chatSqlRes : Except String String)
    (runSql : String → Except String (List Row))
    (vecRes : Except String ChromaRes)
    (chatAnsRes : Except String String) : Except String String :=
  match chatSqlRes with
  | .error e => .error e
  | .ok raw =>
    match runSql (extract_sql raw) with
    | .error e => .ok ("SQL error: " ++ e)
    | .ok _df =>
      match vector_search vecRes with
      | .error e => .error e
      | .ok _vec => chatAnsRes

/-- A vector index entry, reduced to (id, document chunk): the fields the
rebuild writes that a reader can observe. -/
abbrev IndexEntry := String × String

/-- hybridRAG.py lines 152-156: the `col.delete()` step of
`build_vector_store` clears every prior entry of the collection. -/
def deleteAll (_s : List IndexEntry) : List IndexEntry := []

/-- hybridRAG.py lines 179-184: the single `col.add(...)` call appending
the freshly embedded batch to the collection. -/
def addBatch (s batch : List IndexEntry) : List IndexEntry := s ++ batch

/-- The index states visible while `build_vector_store` (hybridRAG.py
lines 147-186) runs: the state before the rebuild, the state after
`col.delete()`, and the state after `col.add`.  The two store operations
are separate collaborator calls with no transaction, lock, or
swap-on-completion, so a concurrent reader can observe any of the three. -/
def rebuildTrace (old batch : List IndexEntry) : List (List IndexEntry) :=
  [old, deleteAll old, addBatch (deleteAll old) batch]

end HybridRAG

namespace HybridRAG

/-- Claim C1 (amended): if the candidate has no case-insensitive `select`
keyword, or if the whitespace-stripped text at and after the first
`select` contains the join marker `" join "` case-insensitively, then
`extract_sql` returns the fixed safe-default query. -/
theorem extract_sql_join_default (t : String) :
    (findSub selKw (lowerL t.data) = none → extract_sql t = safeDefault) ∧
    (∀ i, findSub selKw (lowerL t.data) = some i →
      containsSub (lowerL (stripL (t.data.drop i))) joinKw = true →
      extract_sql t = safeDefault) := by
  constructor
  · intro h
    simp [extract_sql, h]
  · intro i hi hj
    simp [extract_sql, hi, hj]

/-- Witness for C1: the two end-to-end scenarios of the spec, discharged by
applying `extract_sql_join_default` to concrete candidates. -/
theorem extract_sql_join_default_app :
    extract_sql "SELECT name FROM mid_drugs JOIN other" = safeDefault ∧
    extract_sql "No query keyword here at all" = safeDefault :=
  ⟨(extract_sql_join_default "SELECT name FROM mid_drugs JOIN other").2 0
      (by decide) (by decide),
   (extract_sql_join_default "No query keyword here at all").1 (by decide)⟩

/-- Counterexample for C1 as stated: for `"select x join "`, the text at and
after the first `select` (the whole string) does contain `" join "`, yet
`extract_sql` returns the stripped candidate, not the safe default, because
the code strips trailing whitespace before scanning for the join marker. -/
theorem extract_sql_join_unstripped_cex :
    findSub selKw (lowerL "select x join ".data) = some 0 ∧
    containsSub (lowerL ("select x join ".data.drop 0)) joinKw = true ∧
    extract_sql "select x join " ≠ safeDefault ∧
    extract_sql "select x join " = "select x join" := by decide

/-- Claim C10 (amended): the join check precedes the `drug_name` check: when
the whitespace-stripped text at and after the first `select` contains both
`" join "` and `drug_name` case-insensitively, the result is the plain safe
default, not the wildcard default. -/
theorem join_precedes_drugname_spec (t : String) (i : Nat)
    (hi : findSub selKw (lowerL t.data) = some i)
    (hj : containsSub (lowerL (stripL (t.data.drop i))) joinKw = true)
    (_hd : containsSub (lowerL (stripL (t.data.drop i))) drugKw = true) :
    extract_sql t = safeDefault ∧ extract_sql t ≠ wildcardDefault := by
  have h1 : extract_sql t = safeDefault := by simp [extract_sql, hi, hj]
  refine ⟨h1, ?_⟩
  rw [h1]
  decide

/-- Witness for C10 at a concrete candidate containing both markers. -/
theorem join_precedes_drugname_app :
    extract_sql "SELECT drug_name FROM a JOIN b" = safeDefault ∧
    extract_sql "SELECT drug_name FROM a JOIN b" ≠ wildcardDefault :=
  join_precedes_drugname_spec "SELECT drug_name FROM a JOIN b" 0
    (by decide) (by decide) (by decide)

/-- Counterexample for C10 as stated: for `"select drug_name join "` the
unstripped text at and after the first `select` contains both `" join "`
and `drug_name`, yet the result is the wildcard default, because stripping
the trailing space destroys the `" join "` match before the join check. -/
theorem join_precedes_drugname_cex :
    findSub selKw (lowerL "select drug_name join ".data) = some 0 ∧
    containsSub (lowerL ("select drug_name join ".data.drop 0)) joinKw = true ∧
    containsSub (lowerL ("select drug_name join ".data.drop 0)) drugKw = true ∧
    extract_sql "select drug_name join " = wildcardDefault ∧
    extract_sql "select drug_name join " ≠ safeDefault := by decide

/-- Claim C2 (amended): the only unknown-column detection in the validator
is the literal token `drug_name`: when the stripped text at and after the
first `select` contains `drug_name` (case-insensitive) and does not contain
`" join "`, `extract_sql` returns the wildcard-default query. -/
theorem extract_sql_drugname_wildcard (t : String) (i : Nat)
    (hi : findSub selKw (lowerL t.data) = some i)
    (hj : containsSub (lowerL (stripL (t.data.drop i))) joinKw = false)
    (hd : containsSub (lowerL (stripL (t.data.drop i))) drugKw = true) :
    extract_sql t = wildcardDefault := by
  simp [extract_sql, hi, hj, hd]

/-- Witness for C2 at a concrete candidate containing `drug_name`. -/
theorem extract_sql_drugname_wildcard_app :
    extract_sql "SELECT drug_name FROM mid_drugs LIMIT 5" = wildcardDefault :=
  extract_sql_drugname_wildcard "SELECT drug_name FROM mid_drugs LIMIT 5" 0
    (by decide) (by decide) (by decide)

/-- Counterexample for C2 as stated: `unknownColQuery` filters (right after
`WHERE`) on the identifier `bogus_col`, which is not in `EXPECTED_COLUMNS`,
yet `extract_sql` returns the candidate unchanged instead of the
wildcard-default query: the code never consults the schema column set. -/
theorem extract_sql_unknown_column_cex :
    containsSub (lowerL unknownColQuery.data) " where bogus_col".data = true ∧
    "bogus_col" ∉ EXPECTED_COLUMNS ∧
    extract_sql unknownColQuery = unknownColQuery ∧
    extract_sql unknownColQuery ≠ wildcardDefault := by decide

/-- Claim C3 (amended): `extract_sql` is a total function and its result is
always one of: the safe default, the wildcard default, or the candidate's
own text from the first `select` onward with surrounding whitespace
stripped — the last form is passed through with no further validation, so
it need not carry a `LIMIT` clause nor be read-only. -/
theorem extract_sql_output_shape (t : String) :
    extract_sql t = safeDefault ∨ extract_sql t = wildcardDefault ∨
    ∃ i, findSub selKw (lowerL t.data) = some i ∧
      extract_sql t = String.mk (stripL (t.data.drop i)) := by
  cases h : findSub selKw (lowerL t.data) with
  | none => exact Or.inl (by simp [extract_sql, h])
  | some i =>
    by_cases hj : containsSub (lowerL (stripL (t.data.drop i))) joinKw = true
    · exact Or.inl (by simp [extract_sql, h, hj])
    · by_cases hd : containsSub (lowerL (stripL (t.data.drop i))) drugKw = true
      · exact Or.inr (Or.inl (by simp [extract_sql, h, hj, hd]))
      · exact Or.inr (Or.inr ⟨i, rfl, by simp [extract_sql, h, hj, hd]⟩)

/-- Counterexample for C3 as stated: a candidate without `LIMIT` is returned
verbatim (no row bound), and a candidate smuggling a `drop table` statement
after the `select` is also returned verbatim (not read-only). -/
theorem extract_sql_no_limit_cex :
    extract_sql "SELECT * FROM mid_drugs" = "SELECT * FROM mid_drugs" ∧
    containsSub (lowerL (extract_sql "SELECT * FROM mid_drugs").data)
      "limit".data = false ∧
    extract_sql "select 1; drop table mid_drugs"
      = "select 1; drop table mid_drugs" ∧
    containsSub (lowerL (extract_sql "select 1; drop table mid_drugs").data)
      "drop table".data = true := by decide

/-- Claim C4 (confirmed): validating the safe-default query again returns
the same default unchanged. -/
theorem extract_sql_default_idempotent :
    extract_sql safeDefault = safeDefault ∧
    safeDefault = "SELECT * FROM mid_drugs LIMIT 10;" := by decide

theorem isPrefixL_refl (l : List Char) : isPrefixL l l = true := by
  induction l with
  | nil => rfl
  | cons c t ih => simp [isPrefixL, ih]

theorem isPrefixL_append (p s t : List Char) (h : isPrefixL p s = true) :
    isPrefixL p (s ++ t) = true := by
  induction p generalizing s with
  | nil => rfl
  | cons c cs ih =>
    cases s with
    | nil => simp [isPrefixL] at h
    | cons d ds =>
      simp only [isPrefixL, Bool.and_eq_true] at h
      simp [isPrefixL, h.1, ih ds h.2]

theorem containsSub_of_isPrefixL {s p : List Char}
    (h : isPrefixL p s = true) : containsSub s p = true := by
  cases s with
  | nil => simp [containsSub, findSub, h]
  | cons c t => simp [containsSub, findSub, h]

theorem containsSub_cons (c : Char) (t p : List Char) :
    containsSub (c :: t) p = (isPrefixL p (c :: t) || containsSub t p) := by
  by_cases h : isPrefixL p (c :: t) = true
  · simp [containsSub, findSub, h]
  · simp only [Bool.not_eq_true] at h
    simp [containsSub, findSub, h]

theorem containsSub_append_right (a b : List Char) :
    containsSub (a ++ b) b = true := by
  induction a with
  | nil => simpa using containsSub_of_isPrefixL (isPrefixL_refl b)
  | cons c t ih => rw [List.cons_append, containsSub_cons]; simp [ih]

/-- Claim C7 (confirmed): when the structured store raises on executing the
validated query, `ask_mid` returns (does not raise) a string of the form
`"SQL error: " ++ e`, which contains both the phrase `"SQL error"` and the
original error text; `runSql` is consulted exactly once in `ask_mid`, so
there is no retry. -/
theorem ask_mid_sql_error_spec (raw e : String)
    (runSql : String → Except String (List Row))
    (vec : Except String ChromaRes) (ans : Except String String)
    (h : runSql (extract_sql raw) = .error e) :
    ask_mid (.ok raw) runSql vec ans = .ok ("SQL error: " ++ e) ∧
    containsSub ("SQL error: " ++ e).data "SQL error".data = true ∧
    containsSub ("SQL error: " ++ e).data e.data = true := by
  refine ⟨by simp [ask_mid, h], ?_, ?_⟩
  · rw [String.data_append]
    exact containsSub_of_isPrefixL (isPrefixL_append _ _ _ (by decide))
  · rw [String.data_append]
    exact containsSub_append_right "SQL error: ".data e.data

/-- Witness for C7 with a concrete failing structured store. -/
theorem ask_mid_sql_error_app :
    ask_mid (.ok "SELECT 1") (fun _ => .error "no such column")
        (.ok ⟨[], []⟩) (.ok "unused")
      = .ok ("SQL error: " ++ "no such column") ∧
    containsSub ("SQL error: " ++ "no such column").data
      "SQL error".data = true ∧
    containsSub ("SQL error: " ++ "no such column").data
      "no such column".data = true :=
  ask_mid_sql_error_spec "SELECT 1" "no such column"
    (fun _ => .error "no such column") (.ok ⟨[], []⟩) (.ok "unused") rfl

/-- Claim C8 (amended): the orchestrator catches only the structured-store
execution error.  A failure of the SQL-generation chat call, of the vector
search, or of the answer-generation chat call propagates out of `ask_mid`
unchanged instead of being converted to a returned string. -/
theorem ask_mid_catch_spec :
    (∀ (e : String) (runSql : String → Except String (List Row)) vec ans,
      ask_mid (.error e) runSql vec ans = .error e) ∧
    (∀ (raw e : String) vec ans,
      ask_mid (.ok raw) (fun _ => .error e) vec ans
        = .ok ("SQL error: " ++ e)) ∧
    (∀ (raw : String) (rows : List Row) (e : String) ans,
      ask_mid (.ok raw) (fun _ => .ok rows) (.error e) ans = .error e) ∧
    (∀ (raw : String) (rows : List Row) (r : ChromaRes) (e : String),
      ask_mid (.ok raw) (fun _ => .ok rows) (.ok r) (.error e) = .error e) :=
  ⟨fun _ _ _ _ => rfl, fun _ _ _ _ => rfl, fun _ _ _ _ => rfl,
   fun _ _ _ _ => rfl⟩

/-- Counterexample for C8 as stated: a chat-collaborator failure in the
answer step escapes `ask_mid` as an uncaught exception (`.error`), not as
a returned error string. -/
theorem ask_mid_answer_error_cex :
    ask_mid (.ok "select name from mid_drugs limit 3;")
        (fun _ => .ok []) (.ok ⟨[], []⟩) (.error "connection timeout")
      = .error "connection timeout" := rfl

theorem map_text_zip_isPrefix (d m : List String) :
    List.IsPrefix
      (List.map Passage.text ((d.zip m).map fun p => ⟨p.1, p.2⟩)) d := by
  induction d generalizing m with
  | nil => simp
  | cons x xs ih =>
    cases m with
    | nil => simp
    | cons y ys =>
      obtain ⟨t, ht⟩ := ih ys
      exact ⟨t, by simp only [List.zip_cons_cons, List.map_cons,
        List.cons_append, ht]⟩

/-- Claim C5 (amended): assuming the index collaborator honours
`n_results=5` (at most 5 ranked entries in the response), `vector_search`
returns at most 5 passages, in the collaborator's ranked order (the passage
texts are a prefix of the ranked document list), and returns the empty
sequence when the index holds no entries.  (A collaborator error, by
contrast, propagates: see the counterexample.) -/
theorem vector_search_ok_spec (r : ChromaRes)
    (h5 : r.documents.length ≤ 5) :
    ∃ l, vector_search (.ok r) = .ok l ∧ l.length ≤ 5 ∧
      List.IsPrefix (l.map Passage.text) r.documents ∧
      (r.documents = [] → l = []) := by
  refine ⟨(r.documents.zip r.metadatas).map fun p => ⟨p.1, p.2⟩,
    ?_, ?_, ?_, ?_⟩
  · rfl
  · rw [List.length_map, List.length_zip]
    omega
  · exact map_text_zip_isPrefix r.documents r.metadatas
  · intro h
    simp [h]

/-- Witness for C5 on a one-entry collaborator response. -/
theorem vector_search_ok_app :
    ∃ l, vector_search (.ok ⟨["docA"], ["metaA"]⟩) = .ok l ∧
      l.length ≤ 5 ∧
      List.IsPrefix (l.map Passage.text)
        (ChromaRes.mk ["docA"] ["metaA"]).documents ∧
      ((ChromaRes.mk ["docA"] ["metaA"]).documents = [] → l = []) :=
  vector_search_ok_spec ⟨["docA"], ["metaA"]⟩ (by decide)

/-- Counterexample for C5 as stated: when the index is unreachable (the
collaborator raises), `vector_search` propagates the error instead of
returning the empty sequence. -/
theorem vector_search_error_cex :
    vector_search (.error "vector index unreachable")
      = .error "vector index unreachable" ∧
    vector_search (.error "vector index unreachable") ≠ .ok [] :=
  ⟨rfl, fun h => Except.noConfusion h⟩

/-- Claim C6 (amended): the context assembly of `answer_hybrid` applies no
size cap: it always keeps every record and every passage, and for every
bound `max_chars` there are inputs whose serialized context exceeds it. -/
theorem ctx_unbounded_spec (max_chars : Nat) :
    ∃ records passages,
      (buildCtx records passages).sql_rows = records ∧
      (buildCtx records passages).vector_docs = passages ∧
      max_chars < (serializeCtx (buildCtx records passages)).length := by
  refine ⟨[[("name", String.mk (List.replicate (max_chars + 1) 'a'))]],
    [], rfl, rfl, ?_⟩
  simp [serializeCtx, serializeRow, buildCtx, quoteJ, joinComma,
    String.length_append, String.length]
  omega

/-- Counterexample for C6 as stated: at `max_chars = 1`, a single short
record already makes the serialized context longer than the cap, and
nothing is dropped from the context. -/
theorem ctx_exceeds_cap_cex :
    1 < (serializeCtx (buildCtx [[("name", "paracetamol")]] [])).length ∧
    (buildCtx [[("name", "paracetamol")]] []).sql_rows
      = [[("name", "paracetamol")]] ∧
    (buildCtx [[("name", "paracetamol")]] []).vector_docs = [] := by decide

/-- Claim C9 (amended): the rebuild in `build_vector_store` is a
non-atomic delete-then-add: whenever the old index and the new batch are
both non-empty, the rebuild trace contains an observable state (the
cleared index) that is neither the old content nor the new content. -/
theorem rebuild_partial_state_spec (old batch : List IndexEntry)
    (hold : old ≠ []) (hbatch : batch ≠ []) :
    ∃ s ∈ rebuildTrace old batch,
      s ≠ old ∧ s ≠ addBatch (deleteAll old) batch := by
  refine ⟨[], ?_, ?_, ?_⟩
  · simp [rebuildTrace, deleteAll]
  · exact fun h => hold h.symm
  · intro h
    exact hbatch (by simpa [addBatch, deleteAll] using h.symm)

/-- Witness for C9 on a concrete one-entry old index and batch. -/
theorem rebuild_partial_state_app :
    ∃ s ∈ rebuildTrace [("0", "docA")] [("1", "docB")],
      s ≠ [("0", "docA")] ∧
      s ≠ addBatch (deleteAll [("0", "docA")]) [("1", "docB")] :=
  rebuild_partial_state_spec [("0", "docA")] [("1", "docB")]
    (by decide) (by decide)

/-- Counterexample for C9 as stated: the post-delete state is observable in
the rebuild trace and differs from both the complete old content and the
complete new content. -/
theorem rebuild_partial_state_cex :
    deleteAll [("0", "docA")]
        ∈ rebuildTrace [("0", "docA")] [("1", "docB")] ∧
    deleteAll [("0", "docA")] ≠ [("0", "docA")] ∧
    deleteAll [("0", "docA")]
      ≠ addBatch (deleteAll [("0", "docA")]) [("1", "docB")] := by decide

end HybridRAG
